import Mathlib

/-!
Shallow embedding of the uC compiler middle-end found in `uc/uc_block.py`,
`uc/uc_code.py` and `uc/uc_analysis.py`.

Instructions are Python tuples whose first element is an opcode string and
whose remaining elements are strings, integers, or (for `define`) a list of
string pairs.  We model a tuple as a `List PyVal`.
-/

namespace UC

/-- A Python value occurring inside an instruction tuple. -/
inductive PyVal where
  | s (v : String)
  | i (v : Int)
  | plist (v : List (List String))
deriving DecidableEq

/-- One three-address instruction: the Python tuple, as a list of values. -/
abbrev Instr := List PyVal

/-- Python tuple repr of a tuple of strings (used only when a parameter list
leaks into an f-string; mirrors CPython `repr`). -/
def reprPair (p : List String) : String :=
  "(" ++ String.intercalate ", " (p.map (fun x => Char.toString (Char.ofNat 39) ++ x ++ Char.toString (Char.ofNat 39)))
      ++ (if p.length = 1 then ",)" else ")")

/-- Rendering of a value inside an f-string, as Python `str` does. -/
def pyStr : PyVal → String
  | .s v => v
  | .i v => toString v
  | .plist v => "[" ++ String.intercalate ", " (v.map reprPair) ++ "]"

/-- `f"{ty}"` where `ty : Optional[str]`: Python prints `None` when absent. -/
def pyNone (o : Option String) : String := o.getD "None"

/-- Helper for Python `s.split("_")` (explicit single-character separator
semantics: `"a".split("_") = ["a"]`, `"a__b".split("_") = ["a","","b"]`). -/
def splitAux : List Char → List Char → List String
  | [], acc => [String.mk acc.reverse]
  | c :: cs, acc =>
      if c = '_' then String.mk acc.reverse :: splitAux cs []
      else splitAux cs (c :: acc)

/-- Python `s.split("_")`, as used in `format_instruction` (uc_block.py line 14). -/
def pySplitUnderscore (s : String) : List String := splitAux s.data []

/-- The type-qualifier loop of `format_instruction` (uc_block.py lines 17-22):
each extra component is appended as `*` or `[qual]`. -/
def applyQuals (ty : String) (quals : List String) : String :=
  quals.foldl (fun acc q => if q = "*" then acc ++ "*" else acc ++ "[" ++ q ++ "]") ty

/-- The type descriptor `ty` of uc_block.py lines 16-22: `operand[1]` with the
qualifier suffixes, or `None` when the opcode has a single component. -/
def tyDesc (operand : List String) : Option String :=
  match operand with
  | [] => none
  | [_] => none
  | _ :: t1 :: rest => some (applyQuals t1 rest)

/-- The single-quote character, written via its code point. -/
def sq : String := Char.toString (Char.ofNat 39)

/-- Python `s.startswith(pre)` (kernel-reducible rendering). -/
def pyStartsWith (s pre : String) : Bool := pre.data.isPrefixOf s.data

/-- Embedding of `format_instruction` (uc_block.py lines 5-59).  Returns
`none` exactly where the Python function raises (`IndexError` on a missing
operand, `AttributeError` when `ty` is `None` in the `global` branch or the
first element is not a string). -/
def format_instruction : Instr → Option String
  | [] => none
  | .i _ :: _ => none
  | .plist _ :: _ => none
  | .s s0 :: rest =>
    let operand := pySplitUnderscore s0
    let op := operand.headD ""
    let ty := tyDesc operand
    match rest with
    | [] =>
        if ty = some "void" then some ("  " ++ op) else some op
    | t1 :: rest2 =>
        if op = "define" then
          match rest2 with
          | .plist params :: _ =>
              some ("\n" ++ op ++ " " ++ pyNone ty ++ " " ++ pyStr t1 ++ " ("
                    ++ String.intercalate ", " (params.map (fun el => String.intercalate " " el))
                    ++ ")")
          | _ => none
        else
          let pre := if op = "global" then "" else "  "
          if op = "jump" then
            some (pre ++ op ++ " label " ++ pyStr t1)
          else if op = "cbranch" then
            match rest2 with
            | t2 :: t3 :: _ =>
                some (pre ++ op ++ " " ++ pyStr t1 ++ " label " ++ pyStr t2
                      ++ " label " ++ pyStr t3)
            | _ => none
          else if op = "global" then
            match ty with
            | none => none
            | some tys =>
              if pyStartsWith tys "string" then
                match rest2 with
                | t2 :: _ =>
                    some (pre ++ pyStr t1 ++ " = " ++ op ++ " " ++ tys ++ " "
                          ++ sq ++ pyStr t2 ++ sq)
                | [] => none
              else
                match rest2 with
                | t2 :: _ =>
                    some (pre ++ pyStr t1 ++ " = " ++ op ++ " " ++ tys ++ " " ++ pyStr t2)
                | [] => some (pre ++ pyStr t1 ++ " = " ++ op ++ " " ++ tys)
          else if op = "return" ∨ op = "print" then
            some (pre ++ op ++ " " ++ pyNone ty ++ " " ++ pyStr t1)
          else if op = "sitofp" ∨ op = "fptosi" then
            match rest2 with
            | t2 :: _ => some (pre ++ pyStr t2 ++ " = " ++ op ++ " " ++ pyStr t1)
            | [] => none
          else if op = "store" ∨ op = "param" then
            some ((t1 :: rest2).foldl (fun acc el => acc ++ pyStr el ++ " ")
                  (pre ++ op ++ " " ++ pyNone ty ++ " "))
          else
            match (t1 :: rest2).getLast? with
            | none => none
            | some tl =>
                some (((t1 :: rest2).dropLast).foldl
                      (fun acc el => acc ++ pyStr el ++ " ")
                      (pre ++ pyStr tl ++ " = " ++ op ++ " " ++ pyNone ty ++ " "))

/-! ## Blocks, emission-order chain, and the linearizer (uc_block.py lines 62-124) -/

/-- Block kind: `CodeGenerator` only ever constructs `BasicBlock` and
`ConditionBlock` (uc_code.py); `EmitBlocks` has a visit method for both, so
both emit their instructions. -/
inductive BlkKind where
  | basic
  | condition
deriving DecidableEq

/-- A block on the emission-order chain.  `next_block : Optional[Block]` is
folded into the type: `stop` stands for Python `None`, ending the chain
(`BlockVisitor.visit` loops `while isinstance(block, Block)`). -/
inductive Blk where
  | stop
  | node (kind : BlkKind) (label : String) (instructions : List Instr) (next : Blk)

/-- `EmitBlocks`: walk the `next_block` chain, appending every block's
instructions onto the accumulated `self.code` (uc_block.py lines 106-124). -/
def emitLoop (code : List Instr) : Blk → List Instr
  | .stop => code
  | .node _ _ instrs next => emitLoop (code ++ instrs) next

/-- `bb = EmitBlocks(); bb.visit(cfg); bb.code` for one function CFG. -/
def emitBlocks (cfg : Blk) : List Instr := emitLoop [] cfg

/-- The instruction list of each block along the `next_block` chain, in
emission order (specification-side view of the chain). -/
def blockChain : Blk → List (List Instr)
  | .stop => []
  | .node _ _ instrs next => instrs :: blockChain next

/-- A global declaration of the program: either a `FuncDef` carrying its CFG
entry block, or any other global declaration. -/
inductive GDecl where
  | funcDef (cfg : Blk)
  | other

/-- Is the declaration a `FuncDef`? (`isinstance(_decl, FuncDef)`). -/
def isFuncDef : GDecl → Bool
  | .funcDef _ => true
  | .other => false

/-- Second half of `CodeGenerator.visit_Program` (uc_code.py lines 83-97):
`self.code = self.text.copy()`, then for each `FuncDef` in declaration order
append the instructions collected by `EmitBlocks` over its CFG. -/
def codeGen_visit_Program (text : List Instr) (gdecls : List GDecl) : List Instr :=
  gdecls.foldl
    (fun code d =>
      match d with
      | .funcDef cfg => code ++ emitBlocks cfg
      | .other => code)
    text

/-! ## DataFlow (uc_analysis.py lines 13-60)

`DataFlow.visit_Program` first sets `self.code = node.text[:]`, then for each
`FuncDef` calls `self.buildRD_blocks(...)` and seven further analysis and
optimization methods.  None of these methods is defined on `DataFlow` (the
class body says `# TODO: add analyses`), nor on its base `NodeVisitor`
(uc_sema.py lines 53-81), so Python raises `AttributeError` at the first
`FuncDef` before any optimized code is appended.  We model the loop with an
`Except`: the error string stands for the raised `AttributeError`. -/

/-- The loop body of `DataFlow.visit_Program`: the first `FuncDef` hits the
undefined `buildRD_blocks` attribute and raises. -/
def dataFlowLoop : List GDecl → Except String Unit
  | [] => .ok ()
  | .funcDef _ :: _ => .error "AttributeError: DataFlow object has no attribute buildRD_blocks"
  | .other :: rest => dataFlowLoop rest

/-- `DataFlow.visit_Program`: the resulting `self.code` (set to a copy of
`node.text` before the loop and never touched afterwards, since the loop
raises before `appendOptimizedCode`) together with the loop outcome. -/
def dataFlow_visit_Program (text : List Instr) (gdecls : List GDecl) :
    List Instr × Except String Unit :=
  (text, dataFlowLoop gdecls)

/-! ## CodeGenerator naming state (uc_code.py lines 18-59) -/

/-- The naming state of `CodeGenerator`: current scope name `fname` and the
`versions` dictionary (modelled as a partial map). -/
structure CGState where
  fname : String
  versions : String → Option Nat

/-- Dictionary update `d[k] = v`. -/
def dictSet (f : String → Option Nat) (k : String) (v : Nat) : String → Option Nat :=
  fun x => if x = k then some v else f x

/-- `CodeGenerator.__init__` (uc_code.py lines 22-24): scope `_glob_`,
versions pre-seeded with `{"_glob_": 0}`. -/
def CGState.start : CGState :=
  { fname := "_glob_"
  , versions := fun k => if k = "_glob_" then some 0 else none }

/-- `CodeGenerator.new_temp` (uc_code.py lines 43-51): seed the current scope
with 1 if absent, return `"%" + str(counter)`, then increment.  The `getD 0`
branch is unreachable: the scope is present after the seeding step. -/
def new_temp (st : CGState) : String × CGState :=
  let versions :=
    if (st.versions st.fname).isNone then dictSet st.versions st.fname 1
    else st.versions
  let n := (versions st.fname).getD 0
  ("%" ++ toString n, { st with versions := dictSet versions st.fname (n + 1) })

/-- `CodeGenerator.new_text` (uc_code.py lines 53-59): build
`"@." + typename + "." + str(versions["_glob_"])` and bump the `_glob_`
counter (present in every state reachable from `CGState.start`). -/
def new_text (typename : String) (st : CGState) : String × CGState :=
  let n := (st.versions "_glob_").getD 0
  ("@." ++ typename ++ "." ++ toString n,
   { st with versions := dictSet st.versions "_glob_" (n + 1) })

/-! ## The condition block built by `visit_If` (uc_code.py lines 308-372) -/

/-- The observable fields of a `ConditionBlock` (uc_block.py lines 87-96):
`taken` and `fall_through` start as `None` and are only assigned where
`visit_If` assigns them.  We record the labels of the pointed-to blocks. -/
structure CondBlockModel where
  label : String
  instructions : List Instr
  taken : Option String
  fallThrough : Option String
deriving DecidableEq

/-- The `ConditionBlock` produced by `CodeGenerator.visit_If` for an `if`
statement: `('if:',)`, then the code emitted for the condition expression,
then the `cbranch` whose false target is `%if_else` when an else branch
exists and `%if_end` otherwise (lines 328-335); `taken` is assigned only
under `if (node.iftrue)` (line 340) and `fall_through` only under
`if (node.iffalse)` (line 357). -/
def visit_If_condBlock (condCode : List Instr) (condLoc : String)
    (hasThen hasElse : Bool) : CondBlockModel :=
  { label := "%if"
  , instructions :=
      [.s "if:"] :: condCode
        ++ [[.s "cbranch", .s condLoc, .s "%if_then",
             .s (if hasElse then "%if_else" else "%if_end")]]
  , taken := if hasThen then some "%if_then" else none
  , fallThrough := if hasElse then some "%if_else" else none }

/-- The message of the exception raised by the first missing analysis method. -/
def attrErr : String := "AttributeError: DataFlow object has no attribute buildRD_blocks"

/-! ## Helper lemmas -/

theorem emitLoop_eq_join (b : Blk) :
    ∀ code, emitLoop code b = code ++ (blockChain b).flatten := by
  induction b with
  | stop => intro code; simp [emitLoop, blockChain]
  | node k l instrs next ih =>
      intro code
      simp [emitLoop, blockChain, ih, List.append_assoc]

theorem dataFlowLoop_spec (gdecls : List GDecl) :
    (gdecls.any isFuncDef = true → dataFlowLoop gdecls = .error attrErr) ∧
    (gdecls.any isFuncDef = false → dataFlowLoop gdecls = .ok ()) := by
  induction gdecls with
  | nil => exact ⟨fun h => by simp at h, fun _ => rfl⟩
  | cons d rest ih =>
      cases d with
      | funcDef cfg => exact ⟨fun _ => rfl, fun h => by simp [isFuncDef] at h⟩
      | other =>
          refine ⟨fun h => ?_, fun h => ?_⟩
          · simp only [List.any_cons, isFuncDef, Bool.false_or] at h
            simpa [dataFlowLoop] using ih.1 h
          · simp only [List.any_cons, isFuncDef, Bool.false_or] at h
            simpa [dataFlowLoop] using ih.2 h

/-! ## Claim theorems -/

/-- C1: the flat list produced by `CodeGenerator.visit_Program` is exactly the
global/constant section (the copy of `self.text`, unmodified) followed, for
each `FuncDef` in declaration order, by the concatenation of that function's
block instruction lists along the `next_block` emission-order chain. -/
theorem codeGen_visit_Program_flat (text : List Instr) (gdecls : List GDecl) :
    codeGen_visit_Program text gdecls
      = text ++ (gdecls.filterMap
          (fun d => match d with
            | .funcDef cfg => some ((blockChain cfg).flatten)
            | .other => none)).flatten := by
  induction gdecls generalizing text with
  | nil => simp [codeGen_visit_Program]
  | cons d rest ih =>
      cases d with
      | funcDef cfg =>
          simp only [codeGen_visit_Program, List.foldl_cons] at ih ⊢
          rw [ih, List.filterMap_cons]
          simp [emitBlocks, emitLoop_eq_join, List.append_assoc]
      | other =>
          simp only [codeGen_visit_Program, List.foldl_cons] at ih ⊢
          rw [ih, List.filterMap_cons]

/-- C3: `format_instruction` renders `('jump', L)` as exactly
`"  jump label " ++ L` and `('cbranch', c, t, f)` as exactly
`"  cbranch " ++ c ++ " label " ++ t ++ " label " ++ f`. -/
theorem format_instruction_jump_cbranch (L c t f : String) :
    format_instruction [.s "jump", .s L] = some ("  jump label " ++ L) ∧
    format_instruction [.s "cbranch", .s c, .s t, .s f]
      = some ("  cbranch " ++ c ++ " label " ++ t ++ " label " ++ f) :=
  ⟨rfl, rfl⟩

/-- C4 counterexample: a length-2 global declaration (no initializer) is
rendered WITH an assignment sign: `('global_int', '@x')` prints
`"@x = global int"`, whose characters include `=`. -/
theorem format_global_no_init_shows_eq :
    format_instruction [.s "global_int", .s "@x"] = some "@x = global int" ∧
    ("@x = global int").data.contains ('=' : Char) = true := by decide

/-- C4 amended: without an initializer the rendering is
`@name = global <type>` (the `=` is printed, only the value is omitted), not
indented; with an initializer it is `@name = global <type> <value>`, the
value being single-quoted exactly when the type starts with `string`. -/
theorem format_global_rendering (s ty name : String) (v : PyVal)
    (h : pySplitUnderscore s = ["global", ty]) :
    (pyStartsWith ty "string" = false →
      format_instruction [.s s, .s name] = some (name ++ " = global " ++ ty) ∧
      format_instruction [.s s, .s name, v]
        = some (name ++ " = global " ++ ty ++ " " ++ pyStr v)) ∧
    (pyStartsWith ty "string" = true →
      format_instruction [.s s, .s name, v]
        = some (name ++ " = global " ++ ty ++ " " ++ sq ++ pyStr v ++ sq)) := by
  refine ⟨fun h2 => ⟨?_, ?_⟩, fun h2 => ?_⟩ <;>
    (simp only [format_instruction]; rw [h];
     simp [tyDesc, applyQuals, pyStr, h2, String.append_assoc])

/-- Witness for C4: the rendering theorem applied to a concrete int global
and a concrete string constant. -/
theorem format_global_rendering_witness :
    (format_instruction [.s "global_int", .s "@y"]
       = some ("@y" ++ " = global " ++ "int") ∧
     format_instruction [.s "global_int", .s "@y", .i 7]
       = some ("@y" ++ " = global " ++ "int" ++ " " ++ pyStr (.i 7))) ∧
    format_instruction [.s "global_string", .s "@.str.1", .s "hi"]
       = some ("@.str.1" ++ " = global " ++ "string" ++ " " ++ sq ++ pyStr (.s "hi") ++ sq) :=
  ⟨(format_global_rendering "global_int" "int" "@y" (.i 7) (by decide)).1 (by decide),
   (format_global_rendering "global_string" "string" "@.str.1" (.s "hi") (by decide)).2
     (by decide)⟩

/-- C5 counterexample: `('store_int', '%1', '%x')` renders with a trailing
space, `"  store int %1 %x "`, not bit-for-bit `"  store int %1 %x"`. -/
theorem format_store_trailing_space :
    format_instruction [.s "store_int", .s "%1", .s "%x"] = some "  store int %1 %x " ∧
    ("  store int %1 %x " : String) ≠ "  store int %1 %x" := by decide

/-- C5 amended: store and param instructions render as
`  store <type> <src> <dst>` and `  param <type> <value>` followed by one
trailing space character (every operand is emitted with `f"{el} "`). -/
theorem format_store_param_rendering (s ty s2 ty2 : String) (src dst v : PyVal)
    (h : pySplitUnderscore s = ["store", ty])
    (h2 : pySplitUnderscore s2 = ["param", ty2]) :
    format_instruction [.s s, src, dst]
      = some ("  store " ++ ty ++ " " ++ pyStr src ++ " " ++ pyStr dst ++ " ") ∧
    format_instruction [.s s2, v]
      = some ("  param " ++ ty2 ++ " " ++ pyStr v ++ " ") := by
  constructor
  · simp only [format_instruction]; rw [h]
    simp [tyDesc, applyQuals, pyNone, String.append_assoc]
  · simp only [format_instruction]; rw [h2]
    simp [tyDesc, applyQuals, pyNone, String.append_assoc]

/-- Witness for C5: the rendering theorem applied to a concrete store and a
concrete param. -/
theorem format_store_param_rendering_witness :
    format_instruction [.s "store_int", .s "%2", .s "%y"]
      = some ("  store " ++ "int" ++ " " ++ pyStr (.s "%2") ++ " " ++ pyStr (.s "%y") ++ " ") ∧
    format_instruction [.s "param_float", .s "%3"]
      = some ("  param " ++ "float" ++ " " ++ pyStr (.s "%3") ++ " ") :=
  format_store_param_rendering "store_int" "int" "param_float" "float"
    (.s "%2") (.s "%y") (.s "%3") (by decide) (by decide)

theorem string_data_append (a b : String) : (a ++ b).data = a.data ++ b.data := by
  cases a; cases b; rfl

theorem append_char_ne_void (a : String) (c : Char) (hc : ¬ c = 'd') :
    a ++ String.mk [c] ≠ "void" := by
  intro h
  have hd := congrArg String.data h
  rw [string_data_append] at hd
  have h2 : ("void" : String).data = ['v', 'o', 'i', 'd'] := rfl
  rw [h2] at hd
  have h3 := congrArg List.getLast? hd
  rw [List.getLast?_concat] at h3
  simp at h3
  exact hc h3

theorem applyQuals_shape (qs : List String) :
    ∀ t1 q : String, ∃ a : String,
      applyQuals t1 (q :: qs) = a ++ "*" ∨ applyQuals t1 (q :: qs) = a ++ "]" := by
  induction qs with
  | nil =>
      intro t1 q
      by_cases hq : q = "*"
      · exact ⟨t1, Or.inl (by simp [applyQuals, hq])⟩
      · exact ⟨t1 ++ "[" ++ q, Or.inr (by simp [applyQuals, hq])⟩
  | cons q2 qs2 ih =>
      intro t1 q
      have hstep : applyQuals t1 (q :: q2 :: qs2)
          = applyQuals (if q = "*" then t1 ++ "*" else t1 ++ "[" ++ q ++ "]") (q2 :: qs2) := by
        by_cases hq : q = "*" <;> simp [applyQuals, hq]
      rw [hstep]
      exact ih _ q2

theorem applyQuals_ne_void (t1 q : String) (qs : List String) :
    applyQuals t1 (q :: qs) ≠ "void" := by
  obtain ⟨a, h | h⟩ := applyQuals_shape qs t1 q <;> rw [h]
  · have : ("*" : String) = String.mk ['*'] := rfl
    rw [this]; exact append_char_ne_void a '*' (by decide)
  · have : ("]" : String) = String.mk [']'] := rfl
    rw [this]; exact append_char_ne_void a ']' (by decide)

/-- C9 counterexample: the single-element label tuple `('for_end:',)` is NOT
rendered as its bare first element: everything after the first underscore is
dropped and `"for"` is returned. -/
theorem format_single_label_truncated :
    format_instruction [.s "for_end:"] = some "for" ∧
    ("for" : String) ≠ "for_end:" := by decide

/-- C9 amended: a single-element tuple renders as `"  " ++ op` when the
encoded type is exactly `void`, and otherwise as the FIRST underscore-separated
component of its first element, unindented — which equals the bare first
element only when that element contains no underscore (e.g. `('entry:',)`). -/
theorem format_single_rendering :
    (∀ s : String, pySplitUnderscore s = [s] →
       format_instruction [.s s] = some s) ∧
    (∀ s op : String, pySplitUnderscore s = [op, "void"] →
       format_instruction [.s s] = some ("  " ++ op)) ∧
    (∀ s op ty : String, pySplitUnderscore s = [op, ty] → ty ≠ "void" →
       format_instruction [.s s] = some op) ∧
    (∀ (s op t1 q : String) (qs : List String),
       pySplitUnderscore s = op :: t1 :: q :: qs →
       format_instruction [.s s] = some op) := by
  refine ⟨fun s h => ?_, fun s op h => ?_, fun s op ty h hty => ?_,
          fun s op t1 q qs h => ?_⟩
  · simp only [format_instruction]; rw [h]; simp [tyDesc]
  · simp only [format_instruction]; rw [h]; simp [tyDesc, applyQuals]
  · simp only [format_instruction]; rw [h]; simp [tyDesc, applyQuals, hty]
  · simp only [format_instruction]; rw [h]
    simp [tyDesc, applyQuals_ne_void t1 q qs]

/-- Witness for C9: the single-tuple rendering theorem applied to the labels
and opcodes the generator actually emits. -/
theorem format_single_rendering_witness :
    format_instruction [.s "exit:"] = some "exit:" ∧
    format_instruction [.s "print_void"] = some ("  " ++ "print") ∧
    format_instruction [.s "if_then:"] = some "if" ∧
    format_instruction [.s "sub_int_*"] = some "sub" :=
  ⟨format_single_rendering.1 "exit:" (by decide),
   format_single_rendering.2.1 "print_void" "print" (by decide),
   format_single_rendering.2.2.1 "if_then:" "if" "then:" (by decide) (by decide),
   format_single_rendering.2.2.2 "sub_int_*" "sub" "int" "*" [] (by decide)⟩

/-- C6: evaluating `visit_If` at the failing input — an `if` with a then
branch but no else branch — shows the resulting `ConditionBlock` has
`fall_through = None` (only `taken` is assigned), even though its final
instruction is a `cbranch` with false target `%if_end`; so the block does
not have two control successors as the claim requires. -/
theorem visit_If_no_else_missing_fall :
    (visit_If_condBlock [[.s "literal_bool", .i 1, .s "%1"]] "%1" true false).fallThrough
      = none ∧
    (visit_If_condBlock [[.s "literal_bool", .i 1, .s "%1"]] "%1" true false).taken
      = some "%if_then" ∧
    (visit_If_condBlock [[.s "literal_bool", .i 1, .s "%1"]] "%1" true false).instructions.getLast?
      = some [.s "cbranch", .s "%1", .s "%if_then", .s "%if_end"] := by decide

/-- C2: evaluating `DataFlow.visit_Program` at the failing input — a program
whose gdecls contain a `FuncDef` — shows it raises `AttributeError` (the
analysis methods are undefined), so no optimized instruction sequence is
produced and no length comparison with the generated code can hold. -/
theorem dataFlow_raises_on_funcdef :
    (dataFlow_visit_Program [[.s "global_int", .s "@x"]]
        [.funcDef (.node .basic "%main" [[.s "return_void"]] .stop)]).2
      = .error attrErr := rfl

/-- C8: `DataFlow.visit_Program` fails with `AttributeError` (on the missing
`buildRD_blocks`) whenever the gdecls contain a `FuncDef`, with `self.code`
still the untouched copy of `node.text`; with no `FuncDef` it terminates
normally with `self.code` equal to the copy of `node.text`. -/
theorem dataFlow_visit_Program_behavior (text : List Instr) (gdecls : List GDecl) :
    (gdecls.any isFuncDef = true →
       dataFlow_visit_Program text gdecls = (text, .error attrErr)) ∧
    (gdecls.any isFuncDef = false →
       dataFlow_visit_Program text gdecls = (text, .ok ())) := by
  refine ⟨fun h => ?_, fun h => ?_⟩
  · unfold dataFlow_visit_Program
    rw [(dataFlowLoop_spec gdecls).1 h]
  · unfold dataFlow_visit_Program
    rw [(dataFlowLoop_spec gdecls).2 h]

/-- Witness for C8: one program with a function definition (error, globals
kept) and one with only a global declaration (normal termination). -/
theorem dataFlow_visit_Program_behavior_witness :
    dataFlow_visit_Program [[.s "global_int", .s "@g"]]
        [.other, .funcDef (.node .basic "%f" [] .stop)]
      = ([[.s "global_int", .s "@g"]], .error attrErr) ∧
    dataFlow_visit_Program [[.s "global_int", .s "@g"]] [.other]
      = ([[.s "global_int", .s "@g"]], .ok ()) :=
  ⟨(dataFlow_visit_Program_behavior [[.s "global_int", .s "@g"]]
      [.other, .funcDef (.node .basic "%f" [] .stop)]).1 (by decide),
   (dataFlow_visit_Program_behavior [[.s "global_int", .s "@g"]] [.other]).2 (by decide)⟩

/-- C7 counterexample: one CodeGenerator run compiling function `f` and then
function `g` (the scope name is set to the function name, uc_code.py line
115) hands the temporary `%1` to BOTH functions, so the temp-name sets of
two distinct functions are not disjoint. -/
theorem new_temp_name_reused_across_functions :
    (new_temp { CGState.start with fname := "f" }).1 = "%1" ∧
    (new_temp { (new_temp { CGState.start with fname := "f" }).2 with fname := "g" }).1
      = "%1" ∧
    ("f" : String) ≠ "g" := by decide

/-- C7 amended: temporary names are monotonically generated within a scope
(the scope counter yields `%k` then advances to `k+1`), but names ARE reused
across functions: each function scope starts its own counter, so any two
scopes not yet in the versions table both receive `%1` as their first
temporary; distinctness holds only per (scope, name) pair. -/
theorem new_temp_per_scope :
    (∀ (st : CGState) (k : Nat), st.versions st.fname = some k →
       (new_temp st).1 = "%" ++ toString k ∧
       (new_temp st).2.versions st.fname = some (k + 1)) ∧
    (∀ (st : CGState) (f g : String),
       st.versions f = none → st.versions g = none →
       (new_temp { st with fname := f }).1 = "%1" ∧
       (new_temp { st with fname := g }).1 = "%1") := by
  refine ⟨fun st k h => ⟨?_, ?_⟩, fun st f g hf hg => ⟨?_, ?_⟩⟩
  · simp [new_temp, h]
  · simp [new_temp, dictSet, h]
  · simp [new_temp, dictSet, hf]
    rfl
  · simp [new_temp, dictSet, hg]
    rfl

/-- Witness for C7: the per-scope theorem at the initial state (`_glob_`
counter 0) and at two fresh function scopes. -/
theorem new_temp_per_scope_witness :
    ((new_temp CGState.start).1 = "%" ++ toString 0 ∧
     (new_temp CGState.start).2.versions CGState.start.fname = some (0 + 1)) ∧
    ((new_temp { CGState.start with fname := "a" }).1 = "%1" ∧
     (new_temp { CGState.start with fname := "b" }).1 = "%1") :=
  ⟨new_temp_per_scope.1 CGState.start 0 (by decide),
   new_temp_per_scope.2 CGState.start "a" "b" (by decide) (by decide)⟩

/-- C10: `new_temp` is deterministic and strictly increasing per scope: a
scope absent from the versions table yields `%1` first and `%2` next; a scope
with counter `k` yields `%k` and advances to `k+1`; the pre-seeded `_glob_`
scope starts at 0, so its first temporary is `%0`; and `new_text` builds
`@.<typename>.<n>` from, and advances, the same `_glob_` counter. -/
theorem new_temp_new_text_counters :
    (∀ st : CGState, st.versions st.fname = none →
       (new_temp st).1 = "%1" ∧
       (new_temp st).2.versions st.fname = some 2 ∧
       (new_temp (new_temp st).2).1 = "%2") ∧
    (∀ (st : CGState) (k : Nat), st.versions st.fname = some k →
       (new_temp st).1 = "%" ++ toString k ∧
       (new_temp st).2.versions st.fname = some (k + 1)) ∧
    (CGState.start.versions "_glob_" = some 0 ∧
     (new_temp CGState.start).1 = "%0") ∧
    (∀ (st : CGState) (k : Nat) (ty : String), st.versions "_glob_" = some k →
       (new_text ty st).1 = "@." ++ ty ++ "." ++ toString k ∧
       (new_text ty st).2.versions "_glob_" = some (k + 1)) := by
  refine ⟨fun st h => ⟨?_, ?_, ?_⟩, fun st k h => ⟨?_, ?_⟩, ⟨by decide, by decide⟩,
          fun st k ty h => ⟨?_, ?_⟩⟩
  · simp [new_temp, dictSet, h]
    rfl
  · simp [new_temp, dictSet, h]
  · simp [new_temp, dictSet, h]
    rfl
  · simp [new_temp, h]
  · simp [new_temp, dictSet, h]
  · simp [new_text, h]
  · simp [new_text, dictSet, h]

/-- Witness for C10: the counter theorem at a fresh `main` scope, at the
initial `_glob_` scope, and for a string constant name. -/
theorem new_temp_new_text_counters_witness :
    ((new_temp { CGState.start with fname := "main" }).1 = "%1" ∧
     (new_temp { CGState.start with fname := "main" }).2.versions "main" = some 2 ∧
     (new_temp (new_temp { CGState.start with fname := "main" }).2).1 = "%2") ∧
    ((new_temp CGState.start).1 = "%" ++ toString 0 ∧
     (new_temp CGState.start).2.versions "_glob_" = some (0 + 1)) ∧
    ((new_text "str" CGState.start).1 = "@." ++ "str" ++ "." ++ toString 0 ∧
     (new_text "str" CGState.start).2.versions "_glob_" = some (0 + 1)) :=
  ⟨new_temp_new_text_counters.1 { CGState.start with fname := "main" } (by decide),
   new_temp_new_text_counters.2.1 CGState.start 0 (by decide),
   new_temp_new_text_counters.2.2.2 CGState.start 0 "str" (by decide)⟩

/-! ## Concrete evaluations of the rendering function -/

example : format_instruction [.s "jump", .s "%if"] = some "  jump label %if" := by decide
example : format_instruction [.s "cbranch", .s "%1", .s "%a", .s "%b"]
    = some "  cbranch %1 label %a label %b" := by decide
example : format_instruction [.s "global_int", .s "@x"] = some "@x = global int" := by decide
example : format_instruction [.s "global_int", .s "@x", .i 5] = some "@x = global int 5" := by decide
example : format_instruction [.s "store_int", .s "%1", .s "%x"] = some "  store int %1 %x " := by decide
example : format_instruction [.s "param_int", .s "%1"] = some "  param int %1 " := by decide
example : format_instruction [.s "return_void"] = some "  return" := by decide
example : format_instruction [.s "entry:"] = some "entry:" := by decide
example : format_instruction [.s "for_end:"] = some "for" := by decide
example : format_instruction [.s "alloc_int", .s "%x"] = some "  %x = alloc int " := by decide
example : format_instruction [.s "global_string", .s "@.str.0", .s "hi"]
    = some ("@.str.0 = global string " ++ sq ++ "hi" ++ sq) := by decide

end UC
